import Mathlib

/-!
# Verification of `spamsearch.py`

A shallow embedding of the batch probing tool `src/spamsearch.py` and proofs
about it.  The tool reads a target list (`sitios.txt`), skips targets already
recorded in the HIT log (`sitiosexito.txt`) or the FAIL log (`fail.txt`),
and for each pending target runs a two-step HTTP probe against two candidate
endpoint paths, classifying the target HIT or FAIL and appending one line to
the corresponding log.

The network is modelled as an environment: for each (target, path) pair the
environment supplies the response to the first (preflight) POST and the
response to the second (payload) POST, each of which may instead be a
transport failure (`requests.RequestException`).  A response carries a status
code and the result of `resp.json()`, which either raises `ValueError`
(modelled `none`) or yields a JSON value.
-/

/-- A JSON value, as returned by `resp.json()`. -/
inductive JsonVal where
  | null
  | bool (b : Bool)
  | num (n : Int)
  | str (s : String)
  | arr (elems : List JsonVal)
  | obj (fields : List (String × JsonVal))

/-- Whether a JSON value is an object (a Python `dict`).  Only a `dict` has
the `.get` method used by the preflight shape check. -/
def JsonVal.isObj : JsonVal → Bool
  | .obj _ => true
  | _ => false

/-- Python `dict.get key`: the value bound to `key`, or `None`. -/
def jget (fields : List (String × JsonVal)) (key : String) : Option JsonVal :=
  match fields with
  | [] => none
  | (k, v) :: rest => if k = key then some v else jget rest key

/-- Python `v == n` for an `Option` (possibly-`None`) JSON value against an
integer literal: true exactly when `v` is that number. -/
def pyEqNum (v : Option JsonVal) (n : Int) : Bool :=
  match v with
  | some (.num m) => m == n
  | _ => false

/-- Python `v == t` for an `Option` JSON value against a string literal. -/
def pyEqStr (v : Option JsonVal) (t : String) : Bool :=
  match v with
  | some (.str u) => u == t
  | _ => false

/-- The Python exceptions the embedding distinguishes: `AttributeError` is
raised by `j.get` when `j` is not a `dict`; it is not caught by the
`except ValueError` around the shape check. -/
inductive PyExc where
  | attributeError
deriving DecidableEq

/-- An HTTP response: its status code, and the result of `resp.json()`
(`none` models a body that raises `ValueError` when parsed). -/
structure Resp where
  status_code : Nat
  json : Option JsonVal

/-- The environment's behaviour for one (target, candidate path) pair:
the response to the preflight POST and to the payload POST, `none` modelling
a `requests.RequestException` (connection error / timeout). -/
structure PathEnv where
  resp1 : Option Resp
  resp2 : Option Resp

/-- The `is_first_ok` computation of `procesar_sitio` (lines 178-185):
given the preflight response, `True` exactly when the status is 400 and the
body parses to a `dict` with `status == 400` and `error == "Bad Request"`.
A body that raises `ValueError` is caught (`is_first_ok = False`); a body
that parses to a non-`dict` makes `j.get` raise `AttributeError`, which the
`except ValueError` does not catch. -/
def is_first_ok (resp : Resp) : Except PyExc Bool :=
  if resp.status_code = 400 then
    match resp.json with
    | none => Except.ok false
    | some (JsonVal.obj fields) =>
        Except.ok (pyEqNum (jget fields "status") 400 &&
                   pyEqStr (jget fields "error") "Bad Request")
    | some _ => Except.error PyExc.attributeError
  else
    Except.ok false

/-- The body of the `for path in endpoints` loop of `procesar_sitio`
(lines 167-208), over the list of per-path environments, threading the
`hubo_hit` flag.  `Except.error` models an exception escaping the loop. -/
def procesarLoop : List PathEnv → Bool → Except PyExc Bool
  | [], hubo_hit => Except.ok hubo_hit
  | e :: rest, hubo_hit =>
    match e.resp1 with
    | none => procesarLoop rest hubo_hit
    | some resp1 =>
      match is_first_ok resp1 with
      | Except.error ex => Except.error ex
      | Except.ok false => procesarLoop rest hubo_hit
      | Except.ok true =>
        match e.resp2 with
        | none => procesarLoop rest hubo_hit
        | some resp2 =>
          if 200 ≤ resp2.status_code ∧ resp2.status_code < 300 then
            procesarLoop rest true
          else
            procesarLoop rest hubo_hit

/-- The spec's per-path probe outcome taxonomy (`runProbe`). -/
inductive ProbeOutcome where
  | connectionError
  | preflightMismatch
  | payloadRejected
  | success
deriving DecidableEq

def ProbeOutcome.isSuccess : ProbeOutcome → Bool
  | .success => true
  | _ => false

/-- The outcome of the two-step sequence on one (target, path) pair: the
spec's Probe State Machine, read off from one iteration of the loop in
`procesar_sitio`. -/
def pathOutcome (e : PathEnv) : Except PyExc ProbeOutcome :=
  match e.resp1 with
  | none => Except.ok ProbeOutcome.connectionError
  | some resp1 =>
    match is_first_ok resp1 with
    | Except.error ex => Except.error ex
    | Except.ok false => Except.ok ProbeOutcome.preflightMismatch
    | Except.ok true =>
      match e.resp2 with
      | none => Except.ok ProbeOutcome.connectionError
      | some resp2 =>
        if 200 ≤ resp2.status_code ∧ resp2.status_code < 300 then
          Except.ok ProbeOutcome.success
        else
          Except.ok ProbeOutcome.payloadRejected

/-- Whether, on one (target, path) pair, the second (payload) POST is issued:
exactly when the preflight response arrived and `is_first_ok` returned
`True` (lines 187-195). -/
def secondIssued (e : PathEnv) : Bool :=
  match e.resp1 with
  | none => false
  | some resp1 =>
    match is_first_ok resp1 with
    | Except.ok true => true
    | _ => false

/-- The loop of `procesar_sitio`, additionally recording which per-path
environments were actually attempted (in order).  An uncaught exception
stops the loop, so later paths are never attempted. -/
def procesarTrace : List PathEnv → Bool → List PathEnv × Except PyExc Bool
  | [], hubo_hit => ([], Except.ok hubo_hit)
  | e :: rest, hubo_hit =>
    match e.resp1 with
    | none =>
      let (t, r) := procesarTrace rest hubo_hit
      (e :: t, r)
    | some resp1 =>
      match is_first_ok resp1 with
      | Except.error ex => ([e], Except.error ex)
      | Except.ok false =>
        let (t, r) := procesarTrace rest hubo_hit
        (e :: t, r)
      | Except.ok true =>
        match e.resp2 with
        | none =>
          let (t, r) := procesarTrace rest hubo_hit
          (e :: t, r)
        | some resp2 =>
          if 200 ≤ resp2.status_code ∧ resp2.status_code < 300 then
            let (t, r) := procesarTrace rest true
            (e :: t, r)
          else
            let (t, r) := procesarTrace rest hubo_hit
            (e :: t, r)

/-! ## String utilities (Python semantics over character lists) -/

/-- Python `str.strip()` on a character list: drop whitespace from both
ends. -/
def stripChars (l : List Char) : List Char :=
  (l.dropWhile Char.isWhitespace).rdropWhile Char.isWhitespace

/-- Python `line.strip()`. -/
def pyStrip (s : String) : String := ⟨stripChars s.data⟩

/-- Python `s.rstrip("/")`: drop every trailing `'/'`. -/
def pyRstripSlash (s : String) : String :=
  ⟨s.data.rdropWhile (fun c => c == '/')⟩

/-- Whether `pre` is a prefix of `l` (Python `s.startswith`). -/
def listStartsWith : List Char → List Char → Bool
  | [], _ => true
  | _ :: _, [] => false
  | p :: ps, c :: cs => p == c && listStartsWith ps cs

/-- Python `s.startswith(pre)`. -/
def pyStartsWith (s pre : String) : Bool := listStartsWith pre.data s.data

/-! ## File loading (`cargar_lista_sitios`, `cargar_procesados`),
normalization, and the per-target state transformer -/

/-- `cargar_lista_sitios` (lines 32-50) on the lines of `sitios.txt`:
strip each line, skip empty lines and `#` comments, keep the rest in
order. -/
def cargar_lista_sitios : List String → List String
  | [] => []
  | line :: rest =>
    let l := pyStrip line
    if l = "" then cargar_lista_sitios rest
    else if pyStartsWith l "#" then cargar_lista_sitios rest
    else l :: cargar_lista_sitios rest

/-- `cargar_procesados` (lines 53-69) on the lines of the HIT log followed
by the lines of the FAIL log: the stripped nonempty lines (a list standing
for the Python `set`; only membership is used). -/
def cargar_procesados (hitLines failLines : List String) : List String :=
  ((hitLines ++ failLines).map pyStrip).filter (fun l => !(l == ""))

/-- `normalizar_sitio` (lines 72-82): strip, keep an explicit
`http://`/`https://` scheme, otherwise prefix `https://`; strip trailing
slashes. -/
def normalizar_sitio (line : String) : String :=
  let l := pyStrip line
  if pyStartsWith l "http://" || pyStartsWith l "https://" then
    pyRstripSlash l
  else
    "https://" ++ pyRstripSlash l

/-- The two candidate endpoint paths probed for every target
(lines 144-147). -/
def endpoints : List String :=
  ["/a/rivo/otc/login_request", "/apps/ba-loy/otc/login_request"]

/-- The shared mutable state of a run: the lines of the two logs and the
progress counter (`progress["processed"]`). -/
structure RunState where
  hitsLog : List String
  failsLog : List String
  processed : Nat

/-- `procesar_sitio` (lines 128-222) as a state transformer, given the
per-path environments for this target: run the loop; on normal completion
append the target to the HIT log if `hubo_hit` else to the FAIL log; on an
uncaught exception append it to the FAIL log (`except Exception` branch);
in all cases increment the progress counter (`finally`). -/
def procesar_sitio (envs : List PathEnv) (sitio : String) (st : RunState) :
    RunState :=
  let st1 :=
    match procesarLoop envs false with
    | Except.ok true => { st with hitsLog := st.hitsLog ++ [sitio] }
    | Except.ok false => { st with failsLog := st.failsLog ++ [sitio] }
    | Except.error _ => { st with failsLog := st.failsLog ++ [sitio] }
  { st1 with processed := st1.processed + 1 }

/-- The worker pool of `main` (lines 248-253): one `procesar_sitio`
invocation per pending target.  The environment maps a target to its
per-path responses.  Also returns, in submission order, the list of targets
actually probed.  (Log/counter writes are serialized by the lock, so the
final state does not depend on interleaving; the submission-order fold is a
faithful model of the multiset of appended lines.) -/
def procesar_pendientes (env : String → List PathEnv) :
    List String → RunState → RunState × List String
  | [], st => (st, [])
  | sitio :: rest, st =>
    let (stFin, probed) := procesar_pendientes env rest (procesar_sitio (env sitio) sitio st)
    (stFin, sitio :: probed)

/-- The pending list computed in `main` (line 234). -/
def sitiosPendientes (sitios procesados : List String) : List String :=
  sitios.filter (fun s => decide (s ∉ procesados))

/-- `main` (lines 229-260): load the target list (a missing file exits with
code 1), load the processed set, filter, and run the pool.  `sitiosFile` is
`none` when `sitios.txt` does not exist, otherwise its lines. -/
def mainRun (sitiosFile : Option (List String)) (hitLines failLines : List String)
    (env : String → List PathEnv) : Except Nat (RunState × List String) :=
  match sitiosFile with
  | none => Except.error 1
  | some raw =>
    let sitios := cargar_lista_sitios raw
    let procesados := cargar_procesados hitLines failLines
    let pend := sitiosPendientes sitios procesados
    Except.ok (procesar_pendientes env pend ⟨hitLines, failLines, 0⟩)

/-! ## Spec-side predicates and concrete inputs -/

/-- Modelled from the spec: the expected preflight validation response —
status 400 with a body parseable as the exact JSON shape
`{status: 400, error: "Bad Request"}`. -/
def specExpectedPreflight (r : Resp) : Bool :=
  (r.status_code == 400) &&
    (match r.json with
     | some (JsonVal.obj fields) =>
         pyEqNum (jget fields "status") 400 &&
         pyEqStr (jget fields "error") "Bad Request"
     | _ => false)

/-- A preflight response with status 400 whose body parses as JSON but not
as a JSON object (the inputs on which `j.get` raises `AttributeError`). -/
def json400NonObject (r : Resp) : Bool :=
  (r.status_code == 400) &&
    (match r.json with
     | some j => !j.isObj
     | none => false)

/-- The exact expected preflight body. -/
def goodShape : JsonVal :=
  JsonVal.obj [("status", JsonVal.num 400), ("error", JsonVal.str "Bad Request")]

/-- A preflight response matching the expected shape. -/
def rGood : Resp := ⟨400, some goodShape⟩

/-- A status-400 preflight response whose body parses as the JSON number
`7` — parseable, but not an object. -/
def rBadJson : Resp := ⟨400, some (JsonVal.num 7)⟩

/-- A path on which the whole two-step sequence succeeds (payload step
returns 201). -/
def eSucc : PathEnv := ⟨some rGood, some ⟨201, none⟩⟩

/-- A path whose preflight returns 404: a preflight mismatch. -/
def eMismatch : PathEnv := ⟨some ⟨404, none⟩, none⟩

/-- A path whose preflight request fails at the transport level. -/
def eConn : PathEnv := ⟨none, none⟩

/-- A path whose preflight triggers the uncaught `AttributeError`. -/
def eBadJson : PathEnv := ⟨some rBadJson, some ⟨200, none⟩⟩

/-- An environment under which every target has no reachable path. -/
def envNone : String → List PathEnv := fun _ => []

/-- The empty initial run state. -/
def st0 : RunState := ⟨[], [], 0⟩

/-! ## Lemmas about the probe loop -/

/-- One iteration of the loop is exactly one run of the per-path state
machine, folding a `Success` outcome into `hubo_hit`. -/
theorem procesarLoop_cons (e : PathEnv) (rest : List PathEnv) (hubo : Bool) :
    procesarLoop (e :: rest) hubo =
      match pathOutcome e with
      | Except.error ex => Except.error ex
      | Except.ok o => procesarLoop rest (hubo || o.isSuccess) := by
  obtain ⟨r1, r2⟩ := e
  cases r1 with
  | none => simp [procesarLoop, pathOutcome, ProbeOutcome.isSuccess]
  | some resp1 =>
    cases h : is_first_ok resp1 with
    | error ex => simp [procesarLoop, pathOutcome, h]
    | ok b =>
      cases b with
      | false => simp [procesarLoop, pathOutcome, h, ProbeOutcome.isSuccess]
      | true =>
        cases r2 with
        | none => simp [procesarLoop, pathOutcome, h, ProbeOutcome.isSuccess]
        | some resp2 =>
          by_cases h2 : 200 ≤ resp2.status_code ∧ resp2.status_code < 300 <;>
            simp [procesarLoop, pathOutcome, h, h2, ProbeOutcome.isSuccess]

theorem isSuccess_eq_true_iff (o : ProbeOutcome) :
    o.isSuccess = true ↔ o = ProbeOutcome.success := by
  cases o <;> simp [ProbeOutcome.isSuccess]

/-- When the loop finishes without an uncaught exception, `hubo_hit` is true
iff the flag was already set or some attempted path's outcome is
`Success`. -/
theorem procesarLoop_ok_iff : ∀ (envs : List PathEnv) (hubo b : Bool),
    procesarLoop envs hubo = Except.ok b →
    (b = true ↔ hubo = true ∨
      ∃ e ∈ envs, pathOutcome e = Except.ok ProbeOutcome.success)
  | [], hubo, b, h => by
    simp only [procesarLoop, Except.ok.injEq] at h
    subst h
    simp
  | e :: rest, hubo, b, h => by
    rw [procesarLoop_cons] at h
    cases ho : pathOutcome e with
    | error ex => rw [ho] at h; cases h
    | ok o =>
      rw [ho] at h
      have ih := procesarLoop_ok_iff rest (hubo || o.isSuccess) b h
      rw [ih]
      simp only [Bool.or_eq_true, List.mem_cons, exists_eq_or_imp, ho,
        Except.ok.injEq, isSuccess_eq_true_iff]
      tauto

/-- The loop over a concatenation: run the first part; if it finishes
normally, continue over the second with the accumulated flag. -/
theorem procesarLoop_append : ∀ (l₁ l₂ : List PathEnv) (hubo : Bool),
    procesarLoop (l₁ ++ l₂) hubo =
      match procesarLoop l₁ hubo with
      | Except.error ex => Except.error ex
      | Except.ok b => procesarLoop l₂ b
  | [], l₂, hubo => by simp [procesarLoop]
  | e :: l₁, l₂, hubo => by
    rw [List.cons_append, procesarLoop_cons, procesarLoop_cons]
    cases pathOutcome e with
    | error ex => rfl
    | ok o => exact procesarLoop_append l₁ l₂ _

/-- One iteration of the trace-recording loop. -/
theorem procesarTrace_cons (e : PathEnv) (rest : List PathEnv) (hubo : Bool) :
    procesarTrace (e :: rest) hubo =
      match pathOutcome e with
      | Except.error ex => ([e], Except.error ex)
      | Except.ok o =>
        (e :: (procesarTrace rest (hubo || o.isSuccess)).1,
          (procesarTrace rest (hubo || o.isSuccess)).2) := by
  obtain ⟨r1, r2⟩ := e
  cases r1 with
  | none => simp [procesarTrace, pathOutcome, ProbeOutcome.isSuccess]
  | some resp1 =>
    cases h : is_first_ok resp1 with
    | error ex => simp [procesarTrace, pathOutcome, h]
    | ok b =>
      cases b with
      | false => simp [procesarTrace, pathOutcome, h, ProbeOutcome.isSuccess]
      | true =>
        cases r2 with
        | none => simp [procesarTrace, pathOutcome, h, ProbeOutcome.isSuccess]
        | some resp2 =>
          by_cases h2 : 200 ≤ resp2.status_code ∧ resp2.status_code < 300 <;>
            simp [procesarTrace, pathOutcome, h, h2, ProbeOutcome.isSuccess]

/-- The trace-recording loop computes the same result as the loop. -/
theorem procesarTrace_snd : ∀ (envs : List PathEnv) (hubo : Bool),
    (procesarTrace envs hubo).2 = procesarLoop envs hubo
  | [], hubo => rfl
  | e :: rest, hubo => by
    rw [procesarTrace_cons, procesarLoop_cons]
    cases pathOutcome e with
    | error ex => rfl
    | ok o => exact procesarTrace_snd rest _

/-- When the loop finishes without an uncaught exception, every path was
attempted, in the configured order. -/
theorem procesarTrace_fst_of_ok : ∀ (envs : List PathEnv) (hubo b : Bool),
    procesarLoop envs hubo = Except.ok b → (procesarTrace envs hubo).1 = envs
  | [], _, _, _ => rfl
  | e :: rest, hubo, b, h => by
    rw [procesarLoop_cons] at h
    rw [procesarTrace_cons]
    cases ho : pathOutcome e with
    | error ex => rw [ho] at h; cases h
    | ok o =>
      rw [ho] at h
      simp only [List.cons.injEq, true_and]
      exact procesarTrace_fst_of_ok rest _ b h

/-- The trace over a concatenation whose first part finishes normally. -/
theorem procesarTrace_append_ok : ∀ (l₁ l₂ : List PathEnv) (hubo b : Bool),
    procesarLoop l₁ hubo = Except.ok b →
    procesarTrace (l₁ ++ l₂) hubo =
      (l₁ ++ (procesarTrace l₂ b).1, (procesarTrace l₂ b).2)
  | [], l₂, hubo, b, h => by
    simp only [procesarLoop, Except.ok.injEq] at h
    subst h
    simp
  | e :: l₁, l₂, hubo, b, h => by
    rw [procesarLoop_cons] at h
    rw [List.cons_append, procesarTrace_cons]
    cases ho : pathOutcome e with
    | error ex => rw [ho] at h; cases h
    | ok o =>
      rw [ho] at h
      simp only at h ⊢
      rw [procesarTrace_append_ok l₁ l₂ _ b h]
      simp

/-! ## Lemmas about the per-target state transformer and the pool -/

theorem procesar_sitio_processed (envs : List PathEnv) (sitio : String)
    (st : RunState) :
    (procesar_sitio envs sitio st).processed = st.processed + 1 := by
  cases h : procesarLoop envs false with
  | error ex => simp [procesar_sitio, h]
  | ok b => cases b <;> simp [procesar_sitio, h]

theorem procesar_sitio_hit (envs : List PathEnv) (sitio : String) (st : RunState)
    (h : procesarLoop envs false = Except.ok true) :
    (procesar_sitio envs sitio st).hitsLog = st.hitsLog ++ [sitio] ∧
    (procesar_sitio envs sitio st).failsLog = st.failsLog := by
  simp [procesar_sitio, h]

theorem procesar_sitio_fail (envs : List PathEnv) (sitio : String) (st : RunState)
    (h : procesarLoop envs false = Except.ok false) :
    (procesar_sitio envs sitio st).hitsLog = st.hitsLog ∧
    (procesar_sitio envs sitio st).failsLog = st.failsLog ++ [sitio] := by
  simp [procesar_sitio, h]

theorem procesar_sitio_exc (envs : List PathEnv) (sitio : String) (st : RunState)
    (ex : PyExc) (h : procesarLoop envs false = Except.error ex) :
    (procesar_sitio envs sitio st).hitsLog = st.hitsLog ∧
    (procesar_sitio envs sitio st).failsLog = st.failsLog ++ [sitio] := by
  simp [procesar_sitio, h]

/-- Each target invocation adds exactly one occurrence of its own line, and
nothing else, across the two logs. -/
theorem procesar_sitio_count (envs : List PathEnv) (sitio : String)
    (st : RunState) (s : String) :
    ((procesar_sitio envs sitio st).hitsLog ++
      (procesar_sitio envs sitio st).failsLog).count s =
      (st.hitsLog ++ st.failsLog).count s + if sitio = s then 1 else 0 := by
  cases h : procesarLoop envs false with
  | error ex =>
    simp only [procesar_sitio, h, List.count_append, List.append_assoc]
    by_cases hs : sitio = s <;> simp [hs, List.count_cons] <;> omega
  | ok b =>
    cases b with
    | false =>
      simp only [procesar_sitio, h, List.count_append, List.append_assoc]
      by_cases hs : sitio = s <;> simp [hs, List.count_cons] <;> omega
    | true =>
      simp only [procesar_sitio, h, List.count_append, List.append_assoc]
      by_cases hs : sitio = s <;> simp [hs, List.count_cons] <;> omega

theorem procesar_pendientes_probed (env : String → List PathEnv) :
    ∀ (pend : List String) (st : RunState),
      (procesar_pendientes env pend st).2 = pend
  | [], _ => rfl
  | sitio :: rest, st => by
    simp only [procesar_pendientes]
    exact congrArg (sitio :: ·) (procesar_pendientes_probed env rest _)

theorem procesar_pendientes_processed (env : String → List PathEnv) :
    ∀ (pend : List String) (st : RunState),
      (procesar_pendientes env pend st).1.processed = st.processed + pend.length
  | [], _ => rfl
  | sitio :: rest, st => by
    simp only [procesar_pendientes]
    rw [procesar_pendientes_processed env rest _, procesar_sitio_processed]
    simp [List.length_cons]
    omega

/-- Across the whole pool run, the multiset of lines added to the two logs
is exactly the pending list. -/
theorem procesar_pendientes_count (env : String → List PathEnv) (s : String) :
    ∀ (pend : List String) (st : RunState),
      ((procesar_pendientes env pend st).1.hitsLog ++
        (procesar_pendientes env pend st).1.failsLog).count s =
        (st.hitsLog ++ st.failsLog).count s + pend.count s
  | [], _ => by simp [procesar_pendientes]
  | sitio :: rest, st => by
    simp only [procesar_pendientes]
    rw [procesar_pendientes_count env s rest _, procesar_sitio_count]
    by_cases hs : sitio = s <;> simp [hs, List.count_cons] <;> omega

/-! ## Lemmas about stripping and the loaders -/

/-- The head of a `dropWhile` result fails the predicate. -/
theorem head_dropWhile_false (p : Char → Bool) :
    ∀ (l : List Char) (a : Char) (m : List Char),
      l.dropWhile p = a :: m → p a = false
  | [], a, m, h => by simp at h
  | x :: xs, a, m, h => by
    rw [List.dropWhile_cons] at h
    by_cases hx : p x = true
    · rw [if_pos hx] at h
      exact head_dropWhile_false p xs a m h
    · rw [if_neg hx] at h
      cases h
      simpa using hx

/-- A both-ends-stripped list has no leading whitespace left. -/
theorem dropWhile_of_stripChars (l : List Char) :
    (stripChars l).dropWhile Char.isWhitespace = stripChars l := by
  cases hr : stripChars l with
  | nil => simp
  | cons a t =>
    have hpre : stripChars l <+: l.dropWhile Char.isWhitespace :=
      List.rdropWhile_prefix Char.isWhitespace (l.dropWhile Char.isWhitespace)
    rw [hr] at hpre
    obtain ⟨u, hu⟩ := hpre
    have hd : l.dropWhile Char.isWhitespace = a :: (t ++ u) := by
      rw [← hu]; simp
    have hna := head_dropWhile_false Char.isWhitespace l a (t ++ u) hd
    simp [List.dropWhile_cons, hna]

/-- Python `strip` is idempotent. -/
theorem stripChars_idem (l : List Char) :
    stripChars (stripChars l) = stripChars l := by
  conv_lhs => rw [stripChars, dropWhile_of_stripChars]
  rw [stripChars]
  exact List.rdropWhile_idempotent Char.isWhitespace _

theorem pyStrip_idem (s : String) : pyStrip (pyStrip s) = pyStrip s :=
  congrArg String.mk (stripChars_idem s.data)

/-- Every entry of the loaded target list is a stripped, nonempty line. -/
theorem mem_cargar_lista : ∀ (raw : List String) (s : String),
    s ∈ cargar_lista_sitios raw → pyStrip s = s ∧ s ≠ ""
  | [], s, h => by simp [cargar_lista_sitios] at h
  | line :: rest, s, h => by
    by_cases h1 : pyStrip line = ""
    · rw [cargar_lista_sitios] at h
      simp only [h1, if_true, reduceIte] at h
      exact mem_cargar_lista rest s h
    · by_cases h2 : pyStartsWith (pyStrip line) "#" = true
      · rw [cargar_lista_sitios] at h
        simp only [h1, h2, if_true, if_false, reduceIte] at h
        exact mem_cargar_lista rest s h
      · rw [cargar_lista_sitios] at h
        simp only [h1, h2, if_true, if_false, reduceIte] at h
        rcases List.mem_cons.mp h with h3 | h3
        · subst h3
          exact ⟨pyStrip_idem line, h1⟩
        · exact mem_cargar_lista rest s h3

/-- Membership in the processed set: some log line strips to `s`, and `s` is
nonempty. -/
theorem mem_cargar_procesados (hitLines failLines : List String) (s : String) :
    s ∈ cargar_procesados hitLines failLines ↔
      (∃ l ∈ hitLines ++ failLines, pyStrip l = s) ∧ s ≠ "" := by
  constructor
  · intro h
    simp only [cargar_procesados, List.mem_filter, List.mem_map] at h
    obtain ⟨⟨l, hl, hls⟩, hne⟩ := h
    refine ⟨⟨l, hl, hls⟩, ?_⟩
    simpa using hne
  · rintro ⟨⟨l, hl, hls⟩, hne⟩
    simp only [cargar_procesados, List.mem_filter, List.mem_map]
    exact ⟨⟨l, hl, hls⟩, by simpa using hne⟩

theorem mem_sitiosPendientes (sitios procesados : List String) (s : String) :
    s ∈ sitiosPendientes sitios procesados ↔ s ∈ sitios ∧ s ∉ procesados := by
  simp [sitiosPendientes, List.mem_filter]

/-- A target that is not in the processed set occurs in the pending list as
often as in the target list. -/
theorem count_sitiosPendientes (sitios procesados : List String) (s : String)
    (h : s ∉ procesados) :
    (sitiosPendientes sitios procesados).count s = sitios.count s := by
  induction sitios with
  | nil => rfl
  | cons a rest ih =>
    by_cases ha : a ∈ procesados
    · have hne : (s == a) = false := by
        rw [beq_eq_false_iff_ne]
        intro he
        exact h (by rw [he]; exact ha)
      have hnas : ¬(a = s) := by
        intro he
        exact h (by rw [← he]; exact ha)
      simp [sitiosPendientes, List.filter_cons, ha, List.count_cons, hne, hnas] at ih ⊢
      exact ih
    · simp [sitiosPendientes, List.filter_cons, ha, List.count_cons] at ih ⊢
      simp [ih]

/-! ## The claims -/

/-- C1: For every target, after all candidate paths have been probed (the
loop finished without an uncaught exception), the classification flag is
true (HIT) iff at least one per-path probe yielded `Success`; a HIT
target's line is appended to the HIT log and a FAIL target's line to the
FAIL log. -/
theorem claim_C1 (envs : List PathEnv) (sitio : String) (st : RunState)
    (b : Bool) (h : procesarLoop envs false = Except.ok b) :
    (b = true ↔ ∃ e ∈ envs, pathOutcome e = Except.ok ProbeOutcome.success) ∧
    (b = true →
      (procesar_sitio envs sitio st).hitsLog = st.hitsLog ++ [sitio] ∧
      (procesar_sitio envs sitio st).failsLog = st.failsLog) ∧
    (b = false →
      (procesar_sitio envs sitio st).hitsLog = st.hitsLog ∧
      (procesar_sitio envs sitio st).failsLog = st.failsLog ++ [sitio]) := by
  refine ⟨?_, ?_, ?_⟩
  · have hiff := procesarLoop_ok_iff envs false b h
    simpa using hiff
  · intro hb
    subst hb
    exact procesar_sitio_hit envs sitio st h
  · intro hb
    subst hb
    exact procesar_sitio_fail envs sitio st h

theorem claim_C1_witness :
    (true = true ↔
      ∃ e ∈ [eMismatch, eSucc], pathOutcome e = Except.ok ProbeOutcome.success) ∧
    (true = true →
      (procesar_sitio [eMismatch, eSucc] "shop-a.example" st0).hitsLog =
        st0.hitsLog ++ ["shop-a.example"] ∧
      (procesar_sitio [eMismatch, eSucc] "shop-a.example" st0).failsLog =
        st0.failsLog) ∧
    (true = false →
      (procesar_sitio [eMismatch, eSucc] "shop-a.example" st0).hitsLog =
        st0.hitsLog ∧
      (procesar_sitio [eMismatch, eSucc] "shop-a.example" st0).failsLog =
        st0.failsLog ++ ["shop-a.example"]) :=
  claim_C1 [eMismatch, eSucc] "shop-a.example" st0 true rfl

/-- C2: every target invocation appends exactly one line to exactly one of
the two logs and increments the progress counter exactly once, regardless
of how many paths error out; when an uncaught exception escapes the probing
sequence the target is classified FAIL. -/
theorem claim_C2 (envs : List PathEnv) (sitio : String) (st : RunState) :
    (procesar_sitio envs sitio st).processed = st.processed + 1 ∧
    (((procesar_sitio envs sitio st).hitsLog = st.hitsLog ++ [sitio] ∧
      (procesar_sitio envs sitio st).failsLog = st.failsLog) ∨
     ((procesar_sitio envs sitio st).hitsLog = st.hitsLog ∧
      (procesar_sitio envs sitio st).failsLog = st.failsLog ++ [sitio])) ∧
    (∀ ex, procesarLoop envs false = Except.error ex →
      (procesar_sitio envs sitio st).failsLog = st.failsLog ++ [sitio]) := by
  refine ⟨procesar_sitio_processed envs sitio st, ?_, ?_⟩
  · cases h : procesarLoop envs false with
    | error ex => exact Or.inr (procesar_sitio_exc envs sitio st ex h)
    | ok b =>
      cases b with
      | true => exact Or.inl (procesar_sitio_hit envs sitio st h)
      | false => exact Or.inr (procesar_sitio_fail envs sitio st h)
  · intro ex h
    exact (procesar_sitio_exc envs sitio st ex h).2

theorem claim_C2_witness :
    (procesar_sitio [eBadJson] "shop-a.example" st0).processed =
      st0.processed + 1 ∧
    (procesar_sitio [eBadJson] "shop-a.example" st0).failsLog =
      st0.failsLog ++ ["shop-a.example"] :=
  ⟨(claim_C2 [eBadJson] "shop-a.example" st0).1,
   (claim_C2 [eBadJson] "shop-a.example" st0).2.2 PyExc.attributeError rfl⟩

/-- C4 counterexample: a target whose first candidate path's preflight
returns status 400 with a JSON-number body makes the shape check raise an
uncaught `AttributeError`, so only the first of the two configured paths is
attempted — refuting "all configured candidate paths are attempted". -/
theorem claim_C4_counterexample :
    (procesarTrace [eBadJson, eMismatch] false).1 = [eBadJson] ∧
    [eBadJson] ≠ [eBadJson, eMismatch] := by
  refine ⟨rfl, ?_⟩
  simp

/-- C4 (amended): provided the probing sequence completes without an
uncaught exception — which every `Success`, `PreflightMismatch`,
`ConnectionError` or `PayloadRejected` outcome does — all configured
candidate paths are attempted in the fixed configured order, with no early
exit when an earlier path already yielded `Success`. -/
theorem claim_C4_amended (envs : List PathEnv) (b : Bool)
    (h : procesarLoop envs false = Except.ok b) :
    (procesarTrace envs false).1 = envs :=
  procesarTrace_fst_of_ok envs false b h

theorem claim_C4_witness :
    procesarLoop [eSucc, eMismatch, eConn] false = Except.ok true ∧
    (procesarTrace [eSucc, eMismatch, eConn] false).1 =
      [eSucc, eMismatch, eConn] :=
  ⟨rfl, claim_C4_amended [eSucc, eMismatch, eConn] true rfl⟩

/-- C9: a status-400 preflight response whose body parses as JSON but not
as a JSON object makes the shape check raise an uncaught exception; the
remaining candidate paths of the target are skipped, and the target is
classified FAIL and appended to the FAIL log — even when an earlier
candidate path had already yielded `Success`. -/
theorem claim_C9 (pre : List PathEnv) (e : PathEnv) (rest : List PathEnv)
    (r : Resp) (j : JsonVal) (sitio : String) (st : RunState)
    (h1 : e.resp1 = some r) (h2 : r.status_code = 400) (h3 : r.json = some j)
    (h4 : j.isObj = false) (h5 : procesarLoop pre false = Except.ok true) :
    procesarLoop (pre ++ e :: rest) false = Except.error PyExc.attributeError ∧
    (procesarTrace (pre ++ e :: rest) false).1 = pre ++ [e] ∧
    (procesar_sitio (pre ++ e :: rest) sitio st).failsLog =
      st.failsLog ++ [sitio] ∧
    (procesar_sitio (pre ++ e :: rest) sitio st).hitsLog = st.hitsLog := by
  have hif : is_first_ok r = Except.error PyExc.attributeError := by
    obtain ⟨sc, jj⟩ := r
    simp only at h2 h3
    subst h2
    subst h3
    cases j with
    | obj fields => simp [JsonVal.isObj] at h4
    | null => simp [is_first_ok]
    | bool b => simp [is_first_ok]
    | num n => simp [is_first_ok]
    | str u => simp [is_first_ok]
    | arr l => simp [is_first_ok]
  have hpo : pathOutcome e = Except.error PyExc.attributeError := by
    simp [pathOutcome, h1, hif]
  have hloop : procesarLoop (pre ++ e :: rest) false =
      Except.error PyExc.attributeError := by
    rw [procesarLoop_append, h5]
    simp only
    rw [procesarLoop_cons, hpo]
  refine ⟨hloop, ?_, ?_, ?_⟩
  · rw [procesarTrace_append_ok pre (e :: rest) false true h5]
    simp only
    rw [procesarTrace_cons, hpo]
  · exact (procesar_sitio_exc (pre ++ e :: rest) sitio st
      PyExc.attributeError hloop).2
  · exact (procesar_sitio_exc (pre ++ e :: rest) sitio st
      PyExc.attributeError hloop).1

theorem claim_C9_witness :
    procesarLoop ([eSucc] ++ eBadJson :: [eMismatch]) false =
      Except.error PyExc.attributeError ∧
    (procesarTrace ([eSucc] ++ eBadJson :: [eMismatch]) false).1 =
      [eSucc] ++ [eBadJson] ∧
    (procesar_sitio ([eSucc] ++ eBadJson :: [eMismatch]) "shop-a.example"
        st0).failsLog = st0.failsLog ++ ["shop-a.example"] ∧
    (procesar_sitio ([eSucc] ++ eBadJson :: [eMismatch]) "shop-a.example"
        st0).hitsLog = st0.hitsLog :=
  claim_C9 [eSucc] eBadJson [eMismatch] rBadJson (JsonVal.num 7)
    "shop-a.example" st0 rfl rfl rfl rfl rfl

/-- When a preflight response arrives, the payload step is gated exactly by
the expected-shape predicate, and the path's outcome is `PreflightMismatch`
exactly when the shape fails for a reason other than a status-400
non-object JSON body, which instead raises `AttributeError`. -/
theorem preflight_response_cases (e : PathEnv) (r : Resp) (h : e.resp1 = some r) :
    secondIssued e = specExpectedPreflight r ∧
    (pathOutcome e = Except.ok ProbeOutcome.preflightMismatch ↔
      specExpectedPreflight r = false ∧ json400NonObject r = false) ∧
    (pathOutcome e = Except.error PyExc.attributeError ↔
      json400NonObject r = true) := by
  obtain ⟨sc, j⟩ := r
  by_cases hsc : sc = 400
  · subst hsc
    cases j with
    | none =>
      simp [secondIssued, specExpectedPreflight, json400NonObject,
        pathOutcome, is_first_ok, h]
    | some jv =>
      cases jv with
      | obj fields =>
        cases hB : pyEqNum (jget fields "status") 400 &&
            pyEqStr (jget fields "error") "Bad Request" with
        | false =>
          simp [secondIssued, specExpectedPreflight, json400NonObject,
            pathOutcome, is_first_ok, h, hB, JsonVal.isObj]
        | true =>
          have hpo : pathOutcome e ≠ Except.ok ProbeOutcome.preflightMismatch ∧
              pathOutcome e ≠ Except.error PyExc.attributeError := by
            simp only [pathOutcome, h, is_first_ok, if_pos rfl, hB]
            cases e.resp2 with
            | none => simp
            | some r2 =>
              by_cases h2 : 200 ≤ r2.status_code ∧ r2.status_code < 300 <;>
                simp [h2]
          simp [secondIssued, specExpectedPreflight, json400NonObject,
            is_first_ok, h, hB, JsonVal.isObj, hpo.1, hpo.2]
      | null =>
        simp [secondIssued, specExpectedPreflight, json400NonObject,
          pathOutcome, is_first_ok, h, JsonVal.isObj]
      | bool b =>
        simp [secondIssued, specExpectedPreflight, json400NonObject,
          pathOutcome, is_first_ok, h, JsonVal.isObj]
      | num n =>
        simp [secondIssued, specExpectedPreflight, json400NonObject,
          pathOutcome, is_first_ok, h, JsonVal.isObj]
      | str u =>
        simp [secondIssued, specExpectedPreflight, json400NonObject,
          pathOutcome, is_first_ok, h, JsonVal.isObj]
      | arr elems =>
        simp [secondIssued, specExpectedPreflight, json400NonObject,
          pathOutcome, is_first_ok, h, JsonVal.isObj]
  · simp [secondIssued, specExpectedPreflight, json400NonObject,
      pathOutcome, is_first_ok, h, hsc]

/-- C3 counterexample: a preflight response of status 400 whose body parses
as the JSON number `7` has a non-matching shape, so by the claim the path's
outcome should be `PreflightMismatch` (with no payload request); the code
issues no payload request but raises an uncaught `AttributeError` from the
field lookup instead of yielding `PreflightMismatch`. -/
theorem claim_C3_counterexample :
    eBadJson.resp1 = some rBadJson ∧
    rBadJson.status_code = 400 ∧
    rBadJson.json = some (JsonVal.num 7) ∧
    specExpectedPreflight rBadJson = false ∧
    secondIssued eBadJson = false ∧
    pathOutcome eBadJson = Except.error PyExc.attributeError ∧
    ¬(pathOutcome eBadJson = Except.ok ProbeOutcome.preflightMismatch) := by
  refine ⟨rfl, rfl, rfl, rfl, rfl, rfl, ?_⟩
  intro h
  exact Except.noConfusion h

/-- C3 (amended): the payload POST is issued iff the preflight POST
returned (a response at all, with) status 400 and a body parseable as the
exact JSON shape `{status: 400, error: "Bad Request"}`.  Any other status,
an unparseable body, or a parseable JSON-object body with non-matching
fields yields `PreflightMismatch` and no payload request for that path;
however a status-400 body that parses to a non-object JSON value raises an
uncaught `AttributeError` instead of yielding `PreflightMismatch` (it also
issues no payload request). -/
theorem claim_C3_amended (e : PathEnv) :
    (secondIssued e = true ↔
      ∃ r, e.resp1 = some r ∧ specExpectedPreflight r = true) ∧
    ∀ r, e.resp1 = some r →
      (pathOutcome e = Except.ok ProbeOutcome.preflightMismatch ↔
        specExpectedPreflight r = false ∧ json400NonObject r = false) ∧
      (pathOutcome e = Except.error PyExc.attributeError ↔
        json400NonObject r = true) := by
  constructor
  · cases hr : e.resp1 with
    | none =>
      constructor
      · intro hs
        simp [secondIssued, hr] at hs
      · rintro ⟨r, hrr, -⟩
        exact Option.noConfusion hrr
    | some r =>
      rw [(preflight_response_cases e r hr).1]
      constructor
      · intro hspec
        exact ⟨r, rfl, hspec⟩
      · rintro ⟨r2, hr2, hspec⟩
        injection hr2 with h2
        rw [h2]
        exact hspec
  · intro r hr
    exact (preflight_response_cases e r hr).2

theorem claim_C3_amended_witness :
    secondIssued eSucc = true ∧
    (pathOutcome eSucc = Except.ok ProbeOutcome.preflightMismatch ↔
      specExpectedPreflight rGood = false ∧ json400NonObject rGood = false) ∧
    (pathOutcome eSucc = Except.error PyExc.attributeError ↔
      json400NonObject rGood = true) :=
  ⟨(claim_C3_amended eSucc).1.mpr ⟨rGood, rfl, rfl⟩,
   ((claim_C3_amended eSucc).2 rGood rfl).1,
   ((claim_C3_amended eSucc).2 rGood rfl).2⟩

/-- `rstrip("/")` leaves no trailing slash. -/
theorem pyRstripSlash_no_trailing (t : String) :
    (pyRstripSlash t).data.getLast? ≠ some '/' := by
  show (t.data.rdropWhile (fun c => c == '/')).getLast? ≠ some '/'
  rw [List.rdropWhile, List.getLast?_reverse]
  cases hd : t.data.reverse.dropWhile (fun c => c == '/') with
  | nil => simp
  | cons a m =>
    have hna := head_dropWhile_false (fun c => c == '/') t.data.reverse a m hd
    simp only [List.head?_cons, ne_eq, Option.some.injEq]
    intro hc
    rw [hc] at hna
    simp at hna

/-- C7: normalization of a target line is the pure function
`normalizar_sitio`: lines beginning with `http://` or `https://` keep their
scheme (the stripped line is used as-is up to trailing-slash removal), all
other lines are prefixed with `https://`, and trailing slashes are
stripped. -/
theorem claim_C7 (line : String) :
    (pyStartsWith (pyStrip line) "http://" = true ∨
        pyStartsWith (pyStrip line) "https://" = true →
      normalizar_sitio line = pyRstripSlash (pyStrip line)) ∧
    (pyStartsWith (pyStrip line) "http://" = false →
      pyStartsWith (pyStrip line) "https://" = false →
      normalizar_sitio line = "https://" ++ pyRstripSlash (pyStrip line)) ∧
    (pyRstripSlash (pyStrip line)).data.getLast? ≠ some '/' := by
  refine ⟨?_, ?_, pyRstripSlash_no_trailing (pyStrip line)⟩
  · intro h
    rcases h with h | h <;> simp [normalizar_sitio, h]
  · intro h1 h2
    simp [normalizar_sitio, h1, h2]

theorem claim_C7_witness :
    pyStartsWith (pyStrip " http://a.example// ") "http://" = true ∧
    normalizar_sitio " http://a.example// " =
      pyRstripSlash (pyStrip " http://a.example// ") ∧
    pyStartsWith (pyStrip "shop-b.example/") "http://" = false ∧
    pyStartsWith (pyStrip "shop-b.example/") "https://" = false ∧
    normalizar_sitio "shop-b.example/" =
      "https://" ++ pyRstripSlash (pyStrip "shop-b.example/") :=
  ⟨rfl, (claim_C7 " http://a.example// ").1 (Or.inl rfl), rfl, rfl,
   (claim_C7 "shop-b.example/").2.1 rfl rfl⟩

/-- C5: a target string present (after stripping) in either log at startup
is excluded from the pending list and is never probed in the current
run. -/
theorem claim_C5 (hitLines failLines sitios : List String) (s : String)
    (env : String → List PathEnv) (st : RunState)
    (h : s ∈ cargar_procesados hitLines failLines) :
    s ∉ sitiosPendientes sitios (cargar_procesados hitLines failLines) ∧
    s ∉ (procesar_pendientes env
          (sitiosPendientes sitios (cargar_procesados hitLines failLines))
          st).2 := by
  have h1 : s ∉ sitiosPendientes sitios (cargar_procesados hitLines failLines) := by
    rw [mem_sitiosPendientes]
    rintro ⟨-, h2⟩
    exact h2 h
  refine ⟨h1, ?_⟩
  rw [procesar_pendientes_probed]
  exact h1

theorem claim_C5_witness :
    "shop-a.example" ∈ cargar_procesados ["shop-a.example"] [] ∧
    "shop-a.example" ∉ sitiosPendientes ["shop-a.example", "shop-b.example"]
      (cargar_procesados ["shop-a.example"] []) ∧
    "shop-a.example" ∉ (procesar_pendientes envNone
      (sitiosPendientes ["shop-a.example", "shop-b.example"]
        (cargar_procesados ["shop-a.example"] [])) st0).2 :=
  have h : "shop-a.example" ∈ cargar_procesados ["shop-a.example"] [] := by
    decide
  ⟨h,
   (claim_C5 ["shop-a.example"] [] ["shop-a.example", "shop-b.example"]
     "shop-a.example" envNone st0 h).1,
   (claim_C5 ["shop-a.example"] [] ["shop-a.example", "shop-b.example"]
     "shop-a.example" envNone st0 h).2⟩

/-- C6: idempotence of a full run — every processed target is persisted as
its original (already stripped) input string, so a second run over the
resulting logs finds zero pending targets. -/
theorem claim_C6 (raw hitLines failLines : List String)
    (env : String → List PathEnv) (st : RunState) (probed : List String)
    (hrun : mainRun (some raw) hitLines failLines env =
      Except.ok (st, probed)) :
    sitiosPendientes (cargar_lista_sitios raw)
      (cargar_procesados st.hitsLog st.failsLog) = [] := by
  simp only [mainRun, Except.ok.injEq] at hrun
  have hst := congrArg Prod.fst hrun
  simp only at hst
  subst hst
  rw [sitiosPendientes, List.filter_eq_nil_iff]
  intro s hs
  simp only [Bool.not_eq_true, decide_eq_false_iff_not, Decidable.not_not]
  obtain ⟨hstrip, hne⟩ := mem_cargar_lista raw s hs
  rw [mem_cargar_procesados]
  refine ⟨?_, hne⟩
  by_cases hp : s ∈ cargar_procesados hitLines failLines
  · rw [mem_cargar_procesados] at hp
    obtain ⟨⟨l, hl, hls⟩, -⟩ := hp
    refine ⟨l, ?_, hls⟩
    have hcount := procesar_pendientes_count env l
      (sitiosPendientes (cargar_lista_sitios raw)
        (cargar_procesados hitLines failLines)) ⟨hitLines, failLines, 0⟩
    simp only at hcount
    have h1 : 0 < (hitLines ++ failLines).count l := List.count_pos_iff.mpr hl
    exact List.count_pos_iff.mp (by omega)
  · have hspend : s ∈ sitiosPendientes (cargar_lista_sitios raw)
        (cargar_procesados hitLines failLines) := by
      rw [mem_sitiosPendientes]
      exact ⟨hs, hp⟩
    refine ⟨s, ?_, hstrip⟩
    have hcount := procesar_pendientes_count env s
      (sitiosPendientes (cargar_lista_sitios raw)
        (cargar_procesados hitLines failLines)) ⟨hitLines, failLines, 0⟩
    simp only at hcount
    have h1 : 0 < (sitiosPendientes (cargar_lista_sitios raw)
        (cargar_procesados hitLines failLines)).count s :=
      List.count_pos_iff.mpr hspend
    exact List.count_pos_iff.mp (by omega)

theorem claim_C6_witness :
    sitiosPendientes (cargar_lista_sitios ["shop-a.example"])
      (cargar_procesados [] ["shop-a.example"]) = [] :=
  claim_C6 ["shop-a.example"] [] [] envNone ⟨[], ["shop-a.example"], 1⟩
    ["shop-a.example"] rfl

/-- C8: a missing target-list file terminates the run with exit code 1
before any probing; with a readable file the run always completes normally
(no probe outcome aborts it): the probed targets are exactly the pending
list, the progress counter ends at the pending count, and every probed
target lands in one of the two logs. -/
theorem claim_C8 (hitLines failLines raw : List String)
    (env : String → List PathEnv) :
    mainRun none hitLines failLines env = Except.error 1 ∧
    ∀ st probed, mainRun (some raw) hitLines failLines env =
        Except.ok (st, probed) →
      probed = sitiosPendientes (cargar_lista_sitios raw)
        (cargar_procesados hitLines failLines) ∧
      st.processed = probed.length ∧
      ∀ s, s ∈ probed → s ∈ st.hitsLog ∨ s ∈ st.failsLog := by
  refine ⟨rfl, ?_⟩
  intro st probed hrun
  simp only [mainRun, Except.ok.injEq] at hrun
  have hst := congrArg Prod.fst hrun
  have hpr := congrArg Prod.snd hrun
  simp only at hst hpr
  subst hst
  subst hpr
  refine ⟨procesar_pendientes_probed env _ _, ?_, ?_⟩
  · rw [procesar_pendientes_probed, procesar_pendientes_processed]
    simp
  · intro s hs
    rw [procesar_pendientes_probed] at hs
    have hcount := procesar_pendientes_count env s
      (sitiosPendientes (cargar_lista_sitios raw)
        (cargar_procesados hitLines failLines)) ⟨hitLines, failLines, 0⟩
    simp only at hcount
    have h1 : 0 < (sitiosPendientes (cargar_lista_sitios raw)
        (cargar_procesados hitLines failLines)).count s :=
      List.count_pos_iff.mpr hs
    have h2 := List.count_pos_iff.mp
      (show 0 < ((procesar_pendientes env
        (sitiosPendientes (cargar_lista_sitios raw)
          (cargar_procesados hitLines failLines))
        ⟨hitLines, failLines, 0⟩).1.hitsLog ++
        (procesar_pendientes env
        (sitiosPendientes (cargar_lista_sitios raw)
          (cargar_procesados hitLines failLines))
        ⟨hitLines, failLines, 0⟩).1.failsLog).count s by omega)
    exact List.mem_append.mp h2

theorem claim_C8_witness :
    mainRun none [] [] envNone = Except.error 1 ∧
    ("shop-a.example" ∈ (RunState.mk [] ["shop-a.example"] 1).hitsLog ∨
     "shop-a.example" ∈ (RunState.mk [] ["shop-a.example"] 1).failsLog) :=
  ⟨(claim_C8 [] [] ["shop-a.example"] envNone).1,
   ((claim_C8 [] [] ["shop-a.example"] envNone).2
       (RunState.mk [] ["shop-a.example"] 1) ["shop-a.example"] rfl).2.2
     "shop-a.example" (by decide)⟩

/-- C10: a target string occurring n times in the target list and absent
from the processed set appears n times in the pending list, is submitted to
the pool n times, and n lines for it are appended across the logs (which
contained none for it at startup): deduplication happens only against the
logs loaded at startup. -/
theorem claim_C10 (raw hitLines failLines : List String)
    (env : String → List PathEnv) (s : String)
    (hmem : s ∈ cargar_lista_sitios raw)
    (hnp : s ∉ cargar_procesados hitLines failLines) :
    (sitiosPendientes (cargar_lista_sitios raw)
        (cargar_procesados hitLines failLines)).count s =
      (cargar_lista_sitios raw).count s ∧
    (procesar_pendientes env
        (sitiosPendientes (cargar_lista_sitios raw)
          (cargar_procesados hitLines failLines))
        ⟨hitLines, failLines, 0⟩).2.count s =
      (cargar_lista_sitios raw).count s ∧
    (hitLines ++ failLines).count s = 0 ∧
    ((procesar_pendientes env
        (sitiosPendientes (cargar_lista_sitios raw)
          (cargar_procesados hitLines failLines))
        ⟨hitLines, failLines, 0⟩).1.hitsLog ++
      (procesar_pendientes env
        (sitiosPendientes (cargar_lista_sitios raw)
          (cargar_procesados hitLines failLines))
        ⟨hitLines, failLines, 0⟩).1.failsLog).count s =
      (cargar_lista_sitios raw).count s := by
  obtain ⟨hstrip, hne⟩ := mem_cargar_lista raw s hmem
  have hc1 := count_sitiosPendientes (cargar_lista_sitios raw)
    (cargar_procesados hitLines failLines) s hnp
  have hzero : (hitLines ++ failLines).count s = 0 := by
    rw [List.count_eq_zero]
    intro hl
    exact hnp (by rw [mem_cargar_procesados]; exact ⟨⟨s, hl, hstrip⟩, hne⟩)
  refine ⟨hc1, ?_, hzero, ?_⟩
  · rw [procesar_pendientes_probed]
    exact hc1
  · have hcount := procesar_pendientes_count env s
      (sitiosPendientes (cargar_lista_sitios raw)
        (cargar_procesados hitLines failLines)) ⟨hitLines, failLines, 0⟩
    simp only at hcount
    omega

theorem claim_C10_witness :
    (sitiosPendientes
        (cargar_lista_sitios ["shop-a.example", "shop-a.example"])
        (cargar_procesados [] [])).count "shop-a.example" =
      (cargar_lista_sitios ["shop-a.example", "shop-a.example"]).count
        "shop-a.example" ∧
    (procesar_pendientes envNone
        (sitiosPendientes
          (cargar_lista_sitios ["shop-a.example", "shop-a.example"])
          (cargar_procesados [] []))
        ⟨[], [], 0⟩).2.count "shop-a.example" =
      (cargar_lista_sitios ["shop-a.example", "shop-a.example"]).count
        "shop-a.example" ∧
    (([] : List String) ++ ([] : List String)).count "shop-a.example" = 0 ∧
    ((procesar_pendientes envNone
        (sitiosPendientes
          (cargar_lista_sitios ["shop-a.example", "shop-a.example"])
          (cargar_procesados [] []))
        ⟨[], [], 0⟩).1.hitsLog ++
      (procesar_pendientes envNone
        (sitiosPendientes
          (cargar_lista_sitios ["shop-a.example", "shop-a.example"])
          (cargar_procesados [] []))
        ⟨[], [], 0⟩).1.failsLog).count "shop-a.example" =
      (cargar_lista_sitios ["shop-a.example", "shop-a.example"]).count
        "shop-a.example" :=
  claim_C10 ["shop-a.example", "shop-a.example"] [] [] envNone
    "shop-a.example" (by decide) (by decide)
